import Mathlib

/-!
Shallow embedding of the DeepStream metadata schema declared in
src/includes/nvdsmeta_schema.h: the three kind enumerations
(NvDsEventType, NvDsObjectType, NvDsPayloadType), the primitive value
structs, the object-kind variant structs, the analytics block with its
in-place default constructor, and the event record NvDsEventMsgMeta.
The header declares data only; the attach/read/release operations the
spec describes are modelled from the spec where noted.
-/

/-- Event type tags of the NvDsEventType enumeration (header lines 44-60).
Values follow C enum semantics: implicit increments from 0, then the
explicitly assigned reserved-range values. -/
inductive NvDsEventType
  | NVDS_EVENT_ENTRY
  | NVDS_EVENT_EXIT
  | NVDS_EVENT_MOVING
  | NVDS_EVENT_STOPPED
  | NVDS_EVENT_EMPTY
  | NVDS_EVENT_PARKED
  | NVDS_EVENT_RESET
  | NVDS_EVENT_RESERVED
  | NVDS_EVENT_CUSTOM
  | NVDS_EVENT_FRAME_ANALYSIS
  | NVDS_EVENT_FORCE32
  deriving DecidableEq, Repr, Fintype

/-- Numeric value of each NvDsEventType enumerator, exactly as the C
enumeration assigns them. -/
def NvDsEventType.val : NvDsEventType → Nat
  | .NVDS_EVENT_ENTRY => 0
  | .NVDS_EVENT_EXIT => 1
  | .NVDS_EVENT_MOVING => 2
  | .NVDS_EVENT_STOPPED => 3
  | .NVDS_EVENT_EMPTY => 4
  | .NVDS_EVENT_PARKED => 5
  | .NVDS_EVENT_RESET => 6
  | .NVDS_EVENT_RESERVED => 0x100
  | .NVDS_EVENT_CUSTOM => 0x101
  | .NVDS_EVENT_FRAME_ANALYSIS => 0x102
  | .NVDS_EVENT_FORCE32 => 0x7FFFFFFF

/-- Object type tags of the NvDsObjectType enumeration (header lines 65-86).
The FORCE32 enumerator keeps the header's spelling NVDS_OBEJCT_TYPE_FORCE32. -/
inductive NvDsObjectType
  | NVDS_OBJECT_TYPE_VEHICLE
  | NVDS_OBJECT_TYPE_PERSON
  | NVDS_OBJECT_TYPE_FACE
  | NVDS_OBJECT_TYPE_BAG
  | NVDS_OBJECT_TYPE_BICYCLE
  | NVDS_OBJECT_TYPE_ROADSIGN
  | NVDS_OBJECT_TYPE_VEHICLE_EXT
  | NVDS_OBJECT_TYPE_PERSON_EXT
  | NVDS_OBJECT_TYPE_FACE_EXT
  | NVDS_OBJECT_TYPE_PRODUCT
  | NVDS_OBJECT_TYPE_PRODUCT_EXT
  | NVDS_OBJECT_TYPE_RESERVED
  | NVDS_OBJECT_TYPE_CUSTOM
  | NVDS_OBJECT_TYPE_UNKNOWN
  | NVDS_OBJECT_TYPE_FRAME_ANALYSIS
  | NVDS_OBEJCT_TYPE_FORCE32
  deriving DecidableEq, Repr, Fintype

/-- Numeric value of each NvDsObjectType enumerator, exactly as the C
enumeration assigns them. -/
def NvDsObjectType.val : NvDsObjectType → Nat
  | .NVDS_OBJECT_TYPE_VEHICLE => 0
  | .NVDS_OBJECT_TYPE_PERSON => 1
  | .NVDS_OBJECT_TYPE_FACE => 2
  | .NVDS_OBJECT_TYPE_BAG => 3
  | .NVDS_OBJECT_TYPE_BICYCLE => 4
  | .NVDS_OBJECT_TYPE_ROADSIGN => 5
  | .NVDS_OBJECT_TYPE_VEHICLE_EXT => 6
  | .NVDS_OBJECT_TYPE_PERSON_EXT => 7
  | .NVDS_OBJECT_TYPE_FACE_EXT => 8
  | .NVDS_OBJECT_TYPE_PRODUCT => 9
  | .NVDS_OBJECT_TYPE_PRODUCT_EXT => 10
  | .NVDS_OBJECT_TYPE_RESERVED => 0x100
  | .NVDS_OBJECT_TYPE_CUSTOM => 0x101
  | .NVDS_OBJECT_TYPE_UNKNOWN => 0x102
  | .NVDS_OBJECT_TYPE_FRAME_ANALYSIS => 0x103
  | .NVDS_OBEJCT_TYPE_FORCE32 => 0x7FFFFFFF

/-- Payload type tags of the NvDsPayloadType enumeration (header lines 91-102). -/
inductive NvDsPayloadType
  | NVDS_PAYLOAD_DEEPSTREAM
  | NVDS_PAYLOAD_DEEPSTREAM_MINIMAL
  | NVDS_PAYLOAD_DEEPSTREAM_PROTOBUF
  | NVDS_PAYLOAD_RESERVED
  | NVDS_PAYLOAD_CUSTOM
  | NVDS_PAYLOAD_FORCE32
  deriving DecidableEq, Repr, Fintype

/-- Numeric value of each NvDsPayloadType enumerator, exactly as the C
enumeration assigns them. -/
def NvDsPayloadType.val : NvDsPayloadType → Nat
  | .NVDS_PAYLOAD_DEEPSTREAM => 0
  | .NVDS_PAYLOAD_DEEPSTREAM_MINIMAL => 1
  | .NVDS_PAYLOAD_DEEPSTREAM_PROTOBUF => 2
  | .NVDS_PAYLOAD_RESERVED => 0x100
  | .NVDS_PAYLOAD_CUSTOM => 0x101
  | .NVDS_PAYLOAD_FORCE32 => 0x7FFFFFFF

/-- The event-kind enumerators declared before the reserved-range marker
comment of NvDsEventType (header lines 45-51): the core built-in kinds. -/
def coreEventTags : List NvDsEventType :=
  [.NVDS_EVENT_ENTRY, .NVDS_EVENT_EXIT, .NVDS_EVENT_MOVING, .NVDS_EVENT_STOPPED,
   .NVDS_EVENT_EMPTY, .NVDS_EVENT_PARKED, .NVDS_EVENT_RESET]

/-- The object-kind enumerators declared before the reserved-range marker
comment of NvDsObjectType (header lines 66-76): the core built-in kinds. -/
def coreObjectTags : List NvDsObjectType :=
  [.NVDS_OBJECT_TYPE_VEHICLE, .NVDS_OBJECT_TYPE_PERSON, .NVDS_OBJECT_TYPE_FACE,
   .NVDS_OBJECT_TYPE_BAG, .NVDS_OBJECT_TYPE_BICYCLE, .NVDS_OBJECT_TYPE_ROADSIGN,
   .NVDS_OBJECT_TYPE_VEHICLE_EXT, .NVDS_OBJECT_TYPE_PERSON_EXT,
   .NVDS_OBJECT_TYPE_FACE_EXT, .NVDS_OBJECT_TYPE_PRODUCT,
   .NVDS_OBJECT_TYPE_PRODUCT_EXT]

/-- The payload-kind enumerators declared before the reserved-range marker
comment of NvDsPayloadType (header lines 92-94): the core built-in kinds. -/
def corePayloadTags : List NvDsPayloadType :=
  [.NVDS_PAYLOAD_DEEPSTREAM, .NVDS_PAYLOAD_DEEPSTREAM_MINIMAL,
   .NVDS_PAYLOAD_DEEPSTREAM_PROTOBUF]

/-- C1 counterexample: the claim as stated says every tag value defined by
the schema's enumerations, other than the force-32-bit sentinel, lies in
0..0xFF. This is false at the explicit input NVDS_OBJECT_TYPE_UNKNOWN, a
schema-defined (built-in) object-kind tag whose value is 0x102 > 0xFF. -/
theorem C1_reserved_range_counterexample :
    ¬ (∀ t : NvDsObjectType, t ≠ .NVDS_OBEJCT_TYPE_FORCE32 → t.val ≤ 0xFF) :=
  fun h =>
    absurd (h .NVDS_OBJECT_TYPE_UNKNOWN (by decide)) (by decide)

/-- C1 (amended): the core built-in enumerators declared before each
enumeration's reserved-range marker all lie in 0..0xFF; each enumeration
places its reserved marker at 0x100 and its custom marker at 0x101, and the
schema additionally defines tags inside the custom range (event
FRAME_ANALYSIS = 0x102; object UNKNOWN = 0x102 and FRAME_ANALYSIS = 0x103);
0x7FFFFFFF is the force-32-bit sentinel of each enumeration and no other
enumerator takes that value. -/
theorem C1_reserved_ranges_amended :
    (∀ t ∈ coreEventTags, NvDsEventType.val t ≤ 0xFF) ∧
    (∀ t ∈ coreObjectTags, NvDsObjectType.val t ≤ 0xFF) ∧
    (∀ t ∈ corePayloadTags, NvDsPayloadType.val t ≤ 0xFF) ∧
    NvDsEventType.val .NVDS_EVENT_RESERVED = 0x100 ∧
    NvDsEventType.val .NVDS_EVENT_CUSTOM = 0x101 ∧
    NvDsEventType.val .NVDS_EVENT_FRAME_ANALYSIS = 0x102 ∧
    NvDsObjectType.val .NVDS_OBJECT_TYPE_RESERVED = 0x100 ∧
    NvDsObjectType.val .NVDS_OBJECT_TYPE_CUSTOM = 0x101 ∧
    NvDsObjectType.val .NVDS_OBJECT_TYPE_UNKNOWN = 0x102 ∧
    NvDsObjectType.val .NVDS_OBJECT_TYPE_FRAME_ANALYSIS = 0x103 ∧
    NvDsPayloadType.val .NVDS_PAYLOAD_RESERVED = 0x100 ∧
    NvDsPayloadType.val .NVDS_PAYLOAD_CUSTOM = 0x101 ∧
    (∀ t : NvDsEventType, t.val = 0x7FFFFFFF ↔ t = .NVDS_EVENT_FORCE32) ∧
    (∀ t : NvDsObjectType, t.val = 0x7FFFFFFF ↔ t = .NVDS_OBEJCT_TYPE_FORCE32) ∧
    (∀ t : NvDsPayloadType, t.val = 0x7FFFFFFF ↔ t = .NVDS_PAYLOAD_FORCE32) := by
  refine ⟨by decide, by decide, by decide, rfl, rfl, rfl, rfl, rfl, rfl, rfl,
    rfl, rfl, by decide, by decide, by decide⟩

/-- Rectangle position and size (header lines 107-112); the C float fields
are modelled as rationals. -/
structure NvDsRect where
  top : Rat
  left : Rat
  width : Rat
  height : Rat
  deriving DecidableEq, Repr

/-- Geolocation parameters (header lines 117-121). -/
structure NvDsGeoLocation where
  lat : Rat
  lon : Rat
  alt : Rat
  deriving DecidableEq, Repr

/-- A coordinate position (header lines 126-130). -/
structure NvDsCoordinate where
  x : Rat
  y : Rat
  z : Rat
  deriving DecidableEq, Repr

/-- An object signature (header lines 135-140): a pointer to an array of
signature values, modelled as a list, plus the declared number of values. -/
structure NvDsObjectSignature where
  signature : List Rat
  size : Nat
  deriving DecidableEq, Repr

/-- A polygon mask element: an ordered sequence of 2-D points. The header
stores masks as GLists of polygons. -/
abbrev NvDsPolygon := List (Rat × Rat)

/-- Vehicle object parameters (header lines 155-162); gchar pointers are
modelled as owned strings, the empty string being the unknown sentinel. -/
structure NvDsVehicleObject where
  type : String
  make : String
  model : String
  color : String
  region : String
  license : String
  deriving DecidableEq, Repr

/-- Person object parameters (header lines 167-175). -/
structure NvDsPersonObject where
  gender : String
  hair : String
  cap : String
  apparel : String
  age : Nat
  deriving DecidableEq, Repr

/-- Face object parameters (header lines 180-191). -/
structure NvDsFaceObject where
  gender : String
  hair : String
  cap : String
  glasses : String
  facialhair : String
  name : String
  eyecolor : String
  age : Nat
  deriving DecidableEq, Repr

/-- Vehicle object parameters with a polygon mask list (header lines 196-205). -/
structure NvDsVehicleObjectExt where
  type : String
  make : String
  model : String
  color : String
  region : String
  license : String
  mask : List NvDsPolygon
  deriving DecidableEq, Repr

/-- Person object parameters with a polygon mask list (header lines 210-220). -/
structure NvDsPersonObjectExt where
  gender : String
  hair : String
  cap : String
  apparel : String
  age : Nat
  mask : List NvDsPolygon
  deriving DecidableEq, Repr

/-- Face object parameters with a polygon mask list (header lines 225-238);
the header declares the struct tag NvDsFaceObjectWithExt with typedef name
NvDsFaceObjectExt. -/
structure NvDsFaceObjectExt where
  gender : String
  hair : String
  cap : String
  glasses : String
  facialhair : String
  name : String
  eyecolor : String
  age : Nat
  mask : List NvDsPolygon
  deriving DecidableEq, Repr

/-- Product object parameters (header lines 270-274). -/
structure NvDsProductObject where
  brand : String
  type : String
  shape : String
  deriving DecidableEq, Repr

/-- Product object parameters with a polygon mask list (header lines 145-150). -/
structure NvDsProductObjectExt where
  brand : String
  type : String
  shape : String
  mask : List NvDsPolygon
  deriving DecidableEq, Repr

/-- A joint position and confidence (header lines 243-248). -/
structure NvDsJoint where
  x : Rat
  y : Rat
  z : Rat
  confidence : Rat
  deriving DecidableEq, Repr

/-- A body pose's joint points (header lines 253-257): a joint array
modelled as a list, the declared number of joints, and the pose type
(0 for 2-D, 1 for 3-D, integer to admit 2.5-D later). -/
structure NvDsJoints where
  joints : List NvDsJoint
  num_joints : Int
  pose_type : Int
  deriving DecidableEq, Repr

/-- An embedding model's parameters (header lines 262-265): the embedding
vector modelled as a list plus its declared length. -/
structure NvDsEmbedding where
  embedding_vector : List Rat
  embedding_length : Nat
  deriving DecidableEq, Repr

/-- Object movement direction (header lines 277-288). -/
inductive ObjectMoveDirectionType
  | MOVE_UP
  | MOVE_DOWN
  | MOVE_LEFT
  | MOVE_RIGHT
  | MOVE_RIGHT_UP
  | MOVE_RIGHT_DOWN
  | MOVE_LEFT_UP
  | MOVE_LEFT_DOWN
  | MOVE_LITTLE
  | NO_DIRECTION
  deriving DecidableEq, Repr, Fintype

/-- Object status (header lines 293-305). -/
inductive ObjectStatusType
  | VEHICLE_LONG_PARK
  | PERSON_LONG_STANDING
  | PERSON_LONG_WALK
  | PERSON_LOITERING
  | PERSON_BREAKIN
  | PERSON_JAYWALK
  | PERSON_OVERCROWD
  | COLLIDE_PRE
  | COLLIDE_CLOSE
  | OBJ_MOVE
  | NO_STATUS
  deriving DecidableEq, Repr, Fintype

/-- Analytics user object metadata (header lines 308-327). The C array
gint arrayLaneNumber[4] is modelled as a list of length 4; the field
spelling objMoveDIrection follows the header. -/
structure AnalyticsObjectMeta where
  objMoveDIrection : ObjectMoveDirectionType
  objStatus : ObjectStatusType
  move_length : Rat
  time_gap_move_millisec : Rat
  move_speed : Rat
  time_gap_longstay_millisec : Rat
  arrayLaneNumber : List Int
  laneArraySize : Int
  reverseLaneNo : Int
  deriving DecidableEq, Repr

/-- The in-place default constructor _AnalyticsObjectMeta() (header lines
310-316), modelled as a function of the indeterminate pre-state the C++
object has before the constructor body runs: it assigns move_speed = 0,
all four arrayLaneNumber slots = -1, laneArraySize = 0 and
reverseLaneNo = -1, and touches nothing else. -/
def AnalyticsObjectMeta.ctorInit (pre : AnalyticsObjectMeta) : AnalyticsObjectMeta :=
  { pre with
    move_speed := 0,
    arrayLaneNumber :=
      ((((pre.arrayLaneNumber.set 0 (-1)).set 1 (-1)).set 2 (-1)).set 3 (-1)),
    laneArraySize := 0,
    reverseLaneNo := -1 }

/-- Custom message data attached to a payload message (header lines 419-422):
an opaque message buffer, modelled as raw bytes, plus its declared size. -/
structure NvDsCustomMsgInfo where
  message : List Nat
  size : Nat
  deriving DecidableEq, Repr

/-- Modelled from the spec: the error kinds of the error-handling design
(KindMismatch, LengthMismatch, DoubleRelease, UnsupportedKind, EncodeFailed
with an opaque reason). The header declares no error type; these are the
spec's section-7 error kinds. -/
inductive SchemaError
  | KindMismatch
  | LengthMismatch
  | DoubleRelease
  | UnsupportedKind
  | EncodeFailed (reason : String)
  deriving DecidableEq, Repr

/-- Modelled from the spec: the extension slot's content as the tagged union
the design notes prescribe for the untyped extMsg pointer - one arm per
built-in object-kind variant struct of the header, plus one custom arm
carrying a consumer tag and an opaque size-tagged buffer. The header itself
holds this data behind the untyped gpointer extMsg. -/
inductive ExtVariant
  | vehicle (v : NvDsVehicleObject)
  | person (p : NvDsPersonObject)
  | face (f : NvDsFaceObject)
  | vehicleExt (v : NvDsVehicleObjectExt)
  | personExt (p : NvDsPersonObjectExt)
  | faceExt (f : NvDsFaceObjectExt)
  | product (p : NvDsProductObject)
  | productExt (p : NvDsProductObjectExt)
  | custom (tag : Nat) (info : NvDsCustomMsgInfo)
  deriving DecidableEq, Repr

/-- The numeric object-kind tag an extension variant answers to: the
NvDsObjectType enumerator value of its struct for the built-in arms, and
the consumer-chosen tag for the custom arm. -/
def ExtVariant.tag : ExtVariant → Nat
  | .vehicle _ => NvDsObjectType.val .NVDS_OBJECT_TYPE_VEHICLE
  | .person _ => NvDsObjectType.val .NVDS_OBJECT_TYPE_PERSON
  | .face _ => NvDsObjectType.val .NVDS_OBJECT_TYPE_FACE
  | .vehicleExt _ => NvDsObjectType.val .NVDS_OBJECT_TYPE_VEHICLE_EXT
  | .personExt _ => NvDsObjectType.val .NVDS_OBJECT_TYPE_PERSON_EXT
  | .faceExt _ => NvDsObjectType.val .NVDS_OBJECT_TYPE_FACE_EXT
  | .product _ => NvDsObjectType.val .NVDS_OBJECT_TYPE_PRODUCT
  | .productExt _ => NvDsObjectType.val .NVDS_OBJECT_TYPE_PRODUCT_EXT
  | .custom t _ => t

/-- The byte size recorded in extMsgSize when a variant is attached: the
declared size of the opaque buffer for the custom arm. For the built-in
arms the C producer stores sizeof of the variant struct, a memory-layout
quantity with no counterpart in the embedding, modelled as 0. -/
def ExtVariant.declSize : ExtVariant → Nat
  | .custom _ info => info.size
  | _ => 0

/-- Event message metadata (header lines 338-402), field for field in the
header's order. The C field objType has enumeration type NvDsObjectType,
which in C is an integer also carrying consumer-defined custom tags at or
above 0x100 that are not named enumerators, so the embedding stores the
numeric tag (NvDsObjectType.val gives the named tags); extMsg, a gpointer
in the header, is modelled as the optional tagged union ExtVariant. -/
structure NvDsEventMsgMeta where
  type : NvDsEventType
  objType : Nat
  bbox : NvDsRect
  location : NvDsGeoLocation
  coordinate : NvDsCoordinate
  objSignature : NvDsObjectSignature
  objClassId : Int
  sensorId : Int
  moduleId : Int
  placeId : Int
  componentId : Int
  frameId : Int
  confidence : Rat
  trackingId : Nat
  ts : String
  objectId : String
  sensorStr : String
  otherAttrs : String
  videoPath : String
  extMsg : Option ExtVariant
  extMsgSize : Nat
  pose : NvDsJoints
  embedding : NvDsEmbedding
  objStatusInfo : AnalyticsObjectMeta
  boolExistLaneCross : Bool
  boolReverseDrive : Bool
  boolExistOverCrowd : Bool
  boolExistLongPark : Bool
  boolExistLoitering : Bool
  boolExistBreakIn : Bool
  boolExistJayWalk : Bool
  deriving DecidableEq, Repr

/-- Event information (header lines 407-412): the event type and its
metadata. -/
structure NvDsEvent where
  eventType : NvDsEventType
  metadata : NvDsEventMsgMeta
  deriving DecidableEq, Repr

/-- Payload metadata (header lines 427-435): the payload bytes, their
declared size, and the id of the component that attached the payload. -/
structure NvDsPayload where
  payload : List Nat
  payloadSize : Nat
  componentId : Nat
  deriving DecidableEq, Repr

/-- Modelled from the spec: attaching an extension variant to a record.
The extension slot accepts only a variant whose kind equals the record's
declared object-kind tag; a mismatched kind fails with KindMismatch and
leaves the record unchanged, otherwise the variant is stored in extMsg and
its declared byte size in extMsgSize (attaching again replaces the prior
value). The result pairs the resulting record with the error, if any. -/
def attachExt (r : NvDsEventMsgMeta) (v : ExtVariant) :
    NvDsEventMsgMeta × Option SchemaError :=
  if v.tag = r.objType then
    ({ r with extMsg := some v, extMsgSize := v.declSize }, none)
  else
    (r, some .KindMismatch)

/-- Modelled from the spec: reading the extension slot returns the attached
variant, if any. -/
def readExt (r : NvDsEventMsgMeta) : Option ExtVariant :=
  r.extMsg

/-- Modelled from the spec: attaching an object signature given the value
list and the declared count. A declared count that differs from the number
of elements fails with LengthMismatch and leaves the record unchanged. -/
def attachSignature (r : NvDsEventMsgMeta) (vals : List Rat) (declared : Nat) :
    NvDsEventMsgMeta × Option SchemaError :=
  if declared = vals.length then
    ({ r with objSignature := { signature := vals, size := declared } }, none)
  else
    (r, some .LengthMismatch)

/-- Modelled from the spec: attaching a pose given the joint list, the
declared joint count and the pose type. A declared count that differs from
the number of joints fails with LengthMismatch and leaves the record
unchanged. -/
def attachPose (r : NvDsEventMsgMeta) (js : List NvDsJoint)
    (declared : Int) (pt : Int) : NvDsEventMsgMeta × Option SchemaError :=
  if declared = (js.length : Int) then
    ({ r with pose := { joints := js, num_joints := declared, pose_type := pt } },
      none)
  else
    (r, some .LengthMismatch)

/-- Modelled from the spec: attaching an embedding given the vector and the
declared length. A declared length that differs from the number of elements
fails with LengthMismatch and leaves the record unchanged. -/
def attachEmbedding (r : NvDsEventMsgMeta) (vec : List Rat) (declared : Nat) :
    NvDsEventMsgMeta × Option SchemaError :=
  if declared = vec.length then
    ({ r with
        embedding := { embedding_vector := vec, embedding_length := declared } },
      none)
  else
    (r, some .LengthMismatch)

/-- Modelled from the spec: a live record together with the released flag
the design notes require so that double release is diagnosable. -/
structure RecordHandle where
  meta : NvDsEventMsgMeta
  freed : Bool
  deriving DecidableEq, Repr

/-- Modelled from the spec: the record with all of its owned variable-length
storage released - the five owned strings, the signature vector, the joint
array, the embedding vector and the extension slot. -/
def releaseStorage (m : NvDsEventMsgMeta) : NvDsEventMsgMeta :=
  { m with
    objSignature := { signature := [], size := 0 },
    ts := "",
    objectId := "",
    sensorStr := "",
    otherAttrs := "",
    videoPath := "",
    extMsg := none,
    extMsgSize := 0,
    pose := { joints := [], num_joints := 0, pose_type := m.pose.pose_type },
    embedding := { embedding_vector := [], embedding_length := 0 } }

/-- All owned variable-length storage of the record is empty. -/
abbrev ownedStorageCleared (m : NvDsEventMsgMeta) : Prop :=
  m.objSignature.signature = [] ∧ m.objSignature.size = 0 ∧
  m.ts = "" ∧ m.objectId = "" ∧ m.sensorStr = "" ∧ m.otherAttrs = "" ∧
  m.videoPath = "" ∧ m.extMsg = none ∧ m.extMsgSize = 0 ∧
  m.pose.joints = [] ∧ m.pose.num_joints = 0 ∧
  m.embedding.embedding_vector = [] ∧ m.embedding.embedding_length = 0

/-- Modelled from the spec: releasing a record releases all owned
variable-length storage exactly once; a second release of the same handle
is detected as DoubleRelease and changes nothing. -/
def release (h : RecordHandle) : RecordHandle × Option SchemaError :=
  if h.freed then
    (h, some .DoubleRelease)
  else
    ({ meta := releaseStorage h.meta, freed := true }, none)

/-- Modelled from the spec: the analytics block as a pure value with its
documented defaults - no direction, no status, zero counters, the four lane
slots at the sentinel -1, lane count 0 and reverse lane -1. -/
def analyticsDefault : AnalyticsObjectMeta :=
  { objMoveDIrection := .NO_DIRECTION,
    objStatus := .NO_STATUS,
    move_length := 0,
    time_gap_move_millisec := 0,
    move_speed := 0,
    time_gap_longstay_millisec := 0,
    arrayLaneNumber := [-1, -1, -1, -1],
    laneArraySize := 0,
    reverseLaneNo := -1 }

/-- Modelled from the spec: the builder-style record constructor, taking the
event kind, the object-kind tag and the mandatory scalar fields, and
producing a record whose optional attachments are empty and whose analytics
flags are all unset. -/
def newEventMsgMeta (ty : NvDsEventType) (objType : Nat) (bbox : NvDsRect)
    (location : NvDsGeoLocation) (coordinate : NvDsCoordinate)
    (objClassId sensorId moduleId placeId componentId frameId : Int)
    (confidence : Rat) (trackingId : Nat)
    (ts objectId sensorStr otherAttrs videoPath : String) : NvDsEventMsgMeta :=
  { type := ty,
    objType := objType,
    bbox := bbox,
    location := location,
    coordinate := coordinate,
    objSignature := { signature := [], size := 0 },
    objClassId := objClassId,
    sensorId := sensorId,
    moduleId := moduleId,
    placeId := placeId,
    componentId := componentId,
    frameId := frameId,
    confidence := confidence,
    trackingId := trackingId,
    ts := ts,
    objectId := objectId,
    sensorStr := sensorStr,
    otherAttrs := otherAttrs,
    videoPath := videoPath,
    extMsg := none,
    extMsgSize := 0,
    pose := { joints := [], num_joints := 0, pose_type := 0 },
    embedding := { embedding_vector := [], embedding_length := 0 },
    objStatusInfo := analyticsDefault,
    boolExistLaneCross := false,
    boolReverseDrive := false,
    boolExistOverCrowd := false,
    boolExistLongPark := false,
    boolExistLoitering := false,
    boolExistBreakIn := false,
    boolExistJayWalk := false }

/-- Modelled from the spec: setting the seven analytics flags of a record,
each independently of the others. -/
def setAnalyticsFlags (r : NvDsEventMsgMeta)
    (laneCross reverseDrive overCrowd longPark loitering breakIn jayWalk : Bool) :
    NvDsEventMsgMeta :=
  { r with
    boolExistLaneCross := laneCross,
    boolReverseDrive := reverseDrive,
    boolExistOverCrowd := overCrowd,
    boolExistLongPark := longPark,
    boolExistLoitering := loitering,
    boolExistBreakIn := breakIn,
    boolExistJayWalk := jayWalk }

/-- Modelled from the spec: well-formedness of the analytics block's lane
count - it states how many of the 4 lane slots are meaningful, so it lies
between 0 and 4, and the slot array has its fixed C length 4. -/
abbrev wfAnalytics (a : AnalyticsObjectMeta) : Prop :=
  0 ≤ a.laneArraySize ∧ a.laneArraySize ≤ 4 ∧ a.arrayLaneNumber.length = 4

/-- Modelled from the spec: the meaningful lane identifiers of an analytics
block - the first laneArraySize entries of the slot array; slots at or
beyond the count are ignored. -/
def meaningfulLanes (a : AnalyticsObjectMeta) : List Int :=
  a.arrayLaneNumber.take a.laneArraySize.toNat

/-- A concrete record with the given object-kind tag, used by the concrete
instantiations below. -/
def sampleRecord (t : Nat) : NvDsEventMsgMeta :=
  newEventMsgMeta .NVDS_EVENT_ENTRY t
    { top := 0, left := 0, width := 0, height := 0 }
    { lat := 0, lon := 0, alt := 0 }
    { x := 0, y := 0, z := 0 }
    0 0 0 0 0 0 0 0 "" "" "" "" ""

/-- A concrete vehicle variant. -/
def vehSample : NvDsVehicleObject :=
  { type := "sedan", make := "acme", model := "x1", color := "red",
    region := "kr", license := "ab123" }

/-- A concrete custom message buffer. -/
def customInfoSample : NvDsCustomMsgInfo :=
  { message := [7, 0, 255, 3], size := 4 }

/-- A concrete indeterminate pre-state of the analytics block, as the C++
object may hold before its constructor body runs. -/
def analyticsPreSample : AnalyticsObjectMeta :=
  { objMoveDIrection := .MOVE_UP, objStatus := .OBJ_MOVE, move_length := 1,
    time_gap_move_millisec := 2, move_speed := 3,
    time_gap_longstay_millisec := 4, arrayLaneNumber := [5, 6, 7, 8],
    laneArraySize := 2, reverseLaneNo := 9 }

/-- A second concrete pre-state of the analytics block. -/
def analyticsPreSample2 : AnalyticsObjectMeta :=
  { objMoveDIrection := .MOVE_LEFT, objStatus := .PERSON_LOITERING,
    move_length := 10, time_gap_move_millisec := 20, move_speed := 30,
    time_gap_longstay_millisec := 40, arrayLaneNumber := [1, 2, 3, 4],
    laneArraySize := 1, reverseLaneNo := 0 }

/-- The concrete analytics block of the spec's scenario 3: lane count 2,
lane slots 3, 7, -1, -1, reverse lane -1. -/
def laneSampleA : AnalyticsObjectMeta :=
  { objMoveDIrection := .NO_DIRECTION, objStatus := .NO_STATUS,
    move_length := 0, time_gap_move_millisec := 0, move_speed := 0,
    time_gap_longstay_millisec := 0, arrayLaneNumber := [3, 7, -1, -1],
    laneArraySize := 2, reverseLaneNo := -1 }

/-- The scenario-3 block with different values in the two slots at or
beyond the lane count. -/
def laneSampleB : AnalyticsObjectMeta :=
  { objMoveDIrection := .NO_DIRECTION, objStatus := .NO_STATUS,
    move_length := 0, time_gap_move_millisec := 0, move_speed := 0,
    time_gap_longstay_millisec := 0, arrayLaneNumber := [3, 7, 99, 100],
    laneArraySize := 2, reverseLaneNo := -1 }

/-- Writing -1 into the four slots of a 4-element list yields the all-minus-one
list; this is the constructor's lane-array assignment. -/
theorem lanes_set_all (l : List Int) (h : l.length = 4) :
    (((l.set 0 (-1)).set 1 (-1)).set 2 (-1)).set 3 (-1) = [-1, -1, -1, -1] := by
  cases l with
  | nil => simp at h
  | cons a t =>
    cases t with
    | nil => simp at h
    | cons b t =>
      cases t with
      | nil => simp at h
      | cons c t =>
        cases t with
        | nil => simp at h
        | cons d t =>
          cases t with
          | nil => rfl
          | cons e t => simp at h

/-- C2: for every record, a successful attach of an extension variant
stores a variant whose kind equals the record's declared object-kind tag,
and reading the extension afterwards returns the very variant attached -
same kind and same field values (attach-then-read round trip). -/
theorem C2_attach_read_roundtrip (r : NvDsEventMsgMeta) (v : ExtVariant)
    (h : (attachExt r v).2 = none) :
    readExt (attachExt r v).1 = some v ∧
    ExtVariant.tag v = (attachExt r v).1.objType := by
  by_cases hc : v.tag = r.objType
  · simp [attachExt, readExt, hc]
  · simp [attachExt, hc] at h

/-- C2 witness: attaching a concrete vehicle variant to a vehicle-tagged
record and reading it back returns the same variant with the matching kind. -/
theorem C2_attach_read_roundtrip_witness :
    readExt (attachExt (sampleRecord 0) (.vehicle vehSample)).1 =
      some (.vehicle vehSample) ∧
    ExtVariant.tag (.vehicle vehSample) =
      (attachExt (sampleRecord 0) (.vehicle vehSample)).1.objType :=
  C2_attach_read_roundtrip (sampleRecord 0) (.vehicle vehSample) rfl

/-- C3: for signature, pose and embedding attachments, a successful attach
leaves the declared length or count equal to the number of stored elements,
and an attach whose declared length differs from the element count fails
with LengthMismatch and returns the record exactly as it was (atomic
attach). -/
theorem C3_length_checked_attach (r : NvDsEventMsgMeta) (sv : List Rat)
    (sn : Nat) (js : List NvDsJoint) (jn pt : Int) (ev : List Rat) (en : Nat) :
    ((attachSignature r sv sn).2 = none →
      (attachSignature r sv sn).1.objSignature.size =
        (attachSignature r sv sn).1.objSignature.signature.length) ∧
    (sn ≠ sv.length → attachSignature r sv sn = (r, some .LengthMismatch)) ∧
    ((attachPose r js jn pt).2 = none →
      (attachPose r js jn pt).1.pose.num_joints =
        ((attachPose r js jn pt).1.pose.joints.length : Int)) ∧
    (jn ≠ (js.length : Int) →
      attachPose r js jn pt = (r, some .LengthMismatch)) ∧
    ((attachEmbedding r ev en).2 = none →
      (attachEmbedding r ev en).1.embedding.embedding_length =
        (attachEmbedding r ev en).1.embedding.embedding_vector.length) ∧
    (en ≠ ev.length → attachEmbedding r ev en = (r, some .LengthMismatch)) := by
  refine ⟨?_, ?_, ?_, ?_, ?_, ?_⟩
  · intro h
    by_cases hc : sn = sv.length
    · simp [attachSignature, hc]
    · simp [attachSignature, hc] at h
  · intro hne
    simp [attachSignature, hne]
  · intro h
    by_cases hc : jn = (js.length : Int)
    · simp [attachPose, hc]
    · simp [attachPose, hc] at h
  · intro hne
    simp [attachPose, hne]
  · intro h
    by_cases hc : en = ev.length
    · simp [attachEmbedding, hc]
    · simp [attachEmbedding, hc] at h
  · intro hne
    simp [attachEmbedding, hne]

/-- C3 witness: a concrete matched embedding attach stores length equal to
element count, and a concrete mismatched signature attach fails with
LengthMismatch leaving the record unchanged. -/
theorem C3_length_checked_attach_witness :
    (attachEmbedding (sampleRecord 0) [1, 2, 3] 3).1.embedding.embedding_length =
      (attachEmbedding (sampleRecord 0) [1, 2, 3] 3).1.embedding.embedding_vector.length ∧
    attachSignature (sampleRecord 0) [1, 2] 3 =
      (sampleRecord 0, some .LengthMismatch) :=
  ⟨(C3_length_checked_attach (sampleRecord 0) [1, 2] 3 [] 0 0 [1, 2, 3] 3).2.2.2.2.1 rfl,
   (C3_length_checked_attach (sampleRecord 0) [1, 2] 3 [] 0 0 [1, 2, 3] 3).2.1 (by decide)⟩

/-- C4: attaching an extension variant whose kind differs from the record's
declared object-kind tag fails with KindMismatch and returns the record
unmodified; it is never accepted. -/
theorem C4_kind_mismatch_rejected (r : NvDsEventMsgMeta) (v : ExtVariant)
    (h : ExtVariant.tag v ≠ r.objType) :
    attachExt r v = (r, some .KindMismatch) := by
  simp [attachExt, h]

/-- C4 witness: attaching a concrete vehicle variant to a record tagged
NVDS_OBJECT_TYPE_FACE fails with KindMismatch and leaves the record as it
was. -/
theorem C4_kind_mismatch_rejected_witness :
    attachExt (sampleRecord (NvDsObjectType.val .NVDS_OBJECT_TYPE_FACE))
        (.vehicle vehSample) =
      (sampleRecord (NvDsObjectType.val .NVDS_OBJECT_TYPE_FACE),
        some .KindMismatch) :=
  C4_kind_mismatch_rejected
    (sampleRecord (NvDsObjectType.val .NVDS_OBJECT_TYPE_FACE))
    (.vehicle vehSample) (by decide)

/-- C5: releasing a not-yet-released record succeeds, empties every piece of
owned variable-length storage (strings, signature vector, joints, embedding
vector, extension slot), marks the handle released, and a second release of
the same handle is detected as DoubleRelease and changes nothing. -/
theorem C5_release_once (h : RecordHandle) (hf : h.freed = false) :
    (release h).2 = none ∧
    ownedStorageCleared (release h).1.meta ∧
    (release h).1.freed = true ∧
    release (release h).1 = ((release h).1, some .DoubleRelease) := by
  simp [release, hf, releaseStorage, ownedStorageCleared]

/-- C5 witness: releasing a concrete live handle clears its owned storage
and a second release reports DoubleRelease. -/
theorem C5_release_once_witness :
    (release { meta := sampleRecord 1, freed := false }).2 = none ∧
    ownedStorageCleared (release { meta := sampleRecord 1, freed := false }).1.meta ∧
    (release { meta := sampleRecord 1, freed := false }).1.freed = true ∧
    release (release { meta := sampleRecord 1, freed := false }).1 =
      ((release { meta := sampleRecord 1, freed := false }).1,
        some .DoubleRelease) :=
  C5_release_once { meta := sampleRecord 1, freed := false } rfl

/-- C6: for every custom kind (tag at or above 0x100), attaching the opaque
size-tagged buffer succeeds with no validation of the bytes, the buffer and
its declared size are carried and read back unchanged, and releasing the
record afterwards succeeds whatever the bytes are - the core interprets
nothing. -/
theorem C6_custom_roundtrip (t : Nat) (info : NvDsCustomMsgInfo)
    (r : NvDsEventMsgMeta) (_ht : 0x100 ≤ t) (hr : r.objType = t) :
    (attachExt r (.custom t info)).2 = none ∧
    readExt (attachExt r (.custom t info)).1 = some (.custom t info) ∧
    (attachExt r (.custom t info)).1.extMsgSize = info.size ∧
    (release { meta := (attachExt r (.custom t info)).1, freed := false }).2 =
      none := by
  simp [attachExt, ExtVariant.tag, hr, readExt, ExtVariant.declSize, release]

/-- C6 witness: a concrete byte buffer attached under the concrete custom
tag 0x150 round-trips unchanged through attach, read and release. -/
theorem C6_custom_roundtrip_witness :
    (attachExt (sampleRecord 0x150) (.custom 0x150 customInfoSample)).2 = none ∧
    readExt (attachExt (sampleRecord 0x150) (.custom 0x150 customInfoSample)).1 =
      some (.custom 0x150 customInfoSample) ∧
    (attachExt (sampleRecord 0x150) (.custom 0x150 customInfoSample)).1.extMsgSize =
      customInfoSample.size ∧
    (release { meta := (attachExt (sampleRecord 0x150)
        (.custom 0x150 customInfoSample)).1, freed := false }).2 = none :=
  C6_custom_roundtrip 0x150 customInfoSample (sampleRecord 0x150)
    (by decide) rfl

/-- C7 counterexample: the claim says a default-constructed analytics block
has 0 for every unset counter, including movement length. The constructor
assigns move_length nothing, so constructing over the explicit concrete
pre-state analyticsPreSample (whose indeterminate move_length is 1) yields a
block whose move_length is not 0. -/
theorem C7_analytics_default_counterexample :
    (AnalyticsObjectMeta.ctorInit analyticsPreSample).move_length ≠ 0 := by
  decide

/-- C7 (amended): a default-constructed analytics block has every one of
its four lane-identifier slots set to the sentinel -1, lane count
laneArraySize 0, reverse-lane identifier -1, and movement speed 0; the
constructor assigns no other counter, so movement length and the
elapsed-time fields keep their indeterminate pre-state values. -/
theorem C7_analytics_default_values (pre : AnalyticsObjectMeta)
    (h : pre.arrayLaneNumber.length = 4) :
    (AnalyticsObjectMeta.ctorInit pre).arrayLaneNumber = [-1, -1, -1, -1] ∧
    (AnalyticsObjectMeta.ctorInit pre).laneArraySize = 0 ∧
    (AnalyticsObjectMeta.ctorInit pre).reverseLaneNo = -1 ∧
    (AnalyticsObjectMeta.ctorInit pre).move_speed = 0 ∧
    (AnalyticsObjectMeta.ctorInit pre).move_length = pre.move_length ∧
    (AnalyticsObjectMeta.ctorInit pre).time_gap_move_millisec =
      pre.time_gap_move_millisec ∧
    (AnalyticsObjectMeta.ctorInit pre).time_gap_longstay_millisec =
      pre.time_gap_longstay_millisec :=
  ⟨lanes_set_all pre.arrayLaneNumber h, rfl, rfl, rfl, rfl, rfl, rfl⟩

/-- C7 witness: constructing over the concrete pre-state analyticsPreSample
yields the documented lane sentinels, lane count 0, reverse lane -1 and
movement speed 0. -/
theorem C7_analytics_default_values_witness :
    (AnalyticsObjectMeta.ctorInit analyticsPreSample).arrayLaneNumber =
      [-1, -1, -1, -1] ∧
    (AnalyticsObjectMeta.ctorInit analyticsPreSample).laneArraySize = 0 ∧
    (AnalyticsObjectMeta.ctorInit analyticsPreSample).reverseLaneNo = -1 ∧
    (AnalyticsObjectMeta.ctorInit analyticsPreSample).move_speed = 0 ∧
    (AnalyticsObjectMeta.ctorInit analyticsPreSample).move_length =
      analyticsPreSample.move_length ∧
    (AnalyticsObjectMeta.ctorInit analyticsPreSample).time_gap_move_millisec =
      analyticsPreSample.time_gap_move_millisec ∧
    (AnalyticsObjectMeta.ctorInit analyticsPreSample).time_gap_longstay_millisec =
      analyticsPreSample.time_gap_longstay_millisec :=
  C7_analytics_default_values analyticsPreSample (by decide)

/-- C8: for a well-formed analytics block the meaningful lanes are exactly
the first laneArraySize of the 4 slots (so laneArraySize is at most 4), and
slots at indices at or beyond laneArraySize are ignored: two blocks with the
same count and the same slots below the count have the same meaningful
lanes, whatever the later slots hold. -/
theorem C8_lane_count_bounds (a1 a2 : AnalyticsObjectMeta)
    (h1 : wfAnalytics a1) :
    (meaningfulLanes a1).length = a1.laneArraySize.toNat ∧
    a1.laneArraySize ≤ 4 ∧
    (wfAnalytics a2 → a2.laneArraySize = a1.laneArraySize →
      a2.arrayLaneNumber.take a1.laneArraySize.toNat =
        a1.arrayLaneNumber.take a1.laneArraySize.toNat →
      meaningfulLanes a2 = meaningfulLanes a1) := by
  obtain ⟨hnn, hle, hlen⟩ := h1
  refine ⟨?_, hle, ?_⟩
  · simp [meaningfulLanes, List.length_take, hlen]
    omega
  · intro h2 hsz htake
    simp [meaningfulLanes, hsz, htake]

/-- C8 witness: the spec's scenario 3 - with lane count 2 and slots
3, 7, -1, -1 only the first two slots are meaningful, and a block holding
99 and 100 in the ignored slots has the same meaningful lanes. -/
theorem C8_lane_count_bounds_witness :
    (meaningfulLanes laneSampleA).length = laneSampleA.laneArraySize.toNat ∧
    laneSampleA.laneArraySize ≤ 4 ∧
    meaningfulLanes laneSampleB = meaningfulLanes laneSampleA := by
  obtain ⟨h1, h2, h3⟩ := C8_lane_count_bounds laneSampleA laneSampleB (by decide)
  exact ⟨h1, h2, h3 (by decide) (by decide) (by decide)⟩

/-- C9: every record produced by the builder has all seven analytics
boolean flags false, and the flags are independent: setting them to any
combination of values stores exactly that combination, each flag unaffected
by the others. -/
theorem C9_flags_default_false_independent (ty : NvDsEventType) (ot : Nat)
    (bbox : NvDsRect) (location : NvDsGeoLocation) (coordinate : NvDsCoordinate)
    (objClassId sensorId moduleId placeId componentId frameId : Int)
    (confidence : Rat) (trackingId : Nat)
    (ts objectId sensorStr otherAttrs videoPath : String)
    (r : NvDsEventMsgMeta) (b1 b2 b3 b4 b5 b6 b7 : Bool) :
    (newEventMsgMeta ty ot bbox location coordinate objClassId sensorId
        moduleId placeId componentId frameId confidence trackingId ts objectId
        sensorStr otherAttrs videoPath).boolExistLaneCross = false ∧
    (newEventMsgMeta ty ot bbox location coordinate objClassId sensorId
        moduleId placeId componentId frameId confidence trackingId ts objectId
        sensorStr otherAttrs videoPath).boolReverseDrive = false ∧
    (newEventMsgMeta ty ot bbox location coordinate objClassId sensorId
        moduleId placeId componentId frameId confidence trackingId ts objectId
        sensorStr otherAttrs videoPath).boolExistOverCrowd = false ∧
    (newEventMsgMeta ty ot bbox location coordinate objClassId sensorId
        moduleId placeId componentId frameId confidence trackingId ts objectId
        sensorStr otherAttrs videoPath).boolExistLongPark = false ∧
    (newEventMsgMeta ty ot bbox location coordinate objClassId sensorId
        moduleId placeId componentId frameId confidence trackingId ts objectId
        sensorStr otherAttrs videoPath).boolExistLoitering = false ∧
    (newEventMsgMeta ty ot bbox location coordinate objClassId sensorId
        moduleId placeId componentId frameId confidence trackingId ts objectId
        sensorStr otherAttrs videoPath).boolExistBreakIn = false ∧
    (newEventMsgMeta ty ot bbox location coordinate objClassId sensorId
        moduleId placeId componentId frameId confidence trackingId ts objectId
        sensorStr otherAttrs videoPath).boolExistJayWalk = false ∧
    (setAnalyticsFlags r b1 b2 b3 b4 b5 b6 b7).boolExistLaneCross = b1 ∧
    (setAnalyticsFlags r b1 b2 b3 b4 b5 b6 b7).boolReverseDrive = b2 ∧
    (setAnalyticsFlags r b1 b2 b3 b4 b5 b6 b7).boolExistOverCrowd = b3 ∧
    (setAnalyticsFlags r b1 b2 b3 b4 b5 b6 b7).boolExistLongPark = b4 ∧
    (setAnalyticsFlags r b1 b2 b3 b4 b5 b6 b7).boolExistLoitering = b5 ∧
    (setAnalyticsFlags r b1 b2 b3 b4 b5 b6 b7).boolExistBreakIn = b6 ∧
    (setAnalyticsFlags r b1 b2 b3 b4 b5 b6 b7).boolExistJayWalk = b7 :=
  ⟨rfl, rfl, rfl, rfl, rfl, rfl, rfl, rfl, rfl, rfl, rfl, rfl, rfl, rfl⟩

/-- C10: the analytics constructor assigns exactly move_speed, the four
arrayLaneNumber slots, laneArraySize and reverseLaneNo; objMoveDIrection,
objStatus, move_length, time_gap_move_millisec and
time_gap_longstay_millisec are exactly the indeterminate pre-state's
values, so construction gives them no defined value. -/
theorem C10_ctor_assigns_exactly (pre : AnalyticsObjectMeta)
    (h : pre.arrayLaneNumber.length = 4) :
    (AnalyticsObjectMeta.ctorInit pre).move_speed = 0 ∧
    (AnalyticsObjectMeta.ctorInit pre).arrayLaneNumber = [-1, -1, -1, -1] ∧
    (AnalyticsObjectMeta.ctorInit pre).laneArraySize = 0 ∧
    (AnalyticsObjectMeta.ctorInit pre).reverseLaneNo = -1 ∧
    (AnalyticsObjectMeta.ctorInit pre).objMoveDIrection = pre.objMoveDIrection ∧
    (AnalyticsObjectMeta.ctorInit pre).objStatus = pre.objStatus ∧
    (AnalyticsObjectMeta.ctorInit pre).move_length = pre.move_length ∧
    (AnalyticsObjectMeta.ctorInit pre).time_gap_move_millisec =
      pre.time_gap_move_millisec ∧
    (AnalyticsObjectMeta.ctorInit pre).time_gap_longstay_millisec =
      pre.time_gap_longstay_millisec :=
  ⟨rfl, lanes_set_all pre.arrayLaneNumber h, rfl, rfl, rfl, rfl, rfl, rfl, rfl⟩

/-- C10 witness: over the concrete pre-state analyticsPreSample2 the
constructor writes its four target field groups and carries every other
field over from the pre-state. -/
theorem C10_ctor_assigns_exactly_witness :
    (AnalyticsObjectMeta.ctorInit analyticsPreSample2).move_speed = 0 ∧
    (AnalyticsObjectMeta.ctorInit analyticsPreSample2).arrayLaneNumber =
      [-1, -1, -1, -1] ∧
    (AnalyticsObjectMeta.ctorInit analyticsPreSample2).laneArraySize = 0 ∧
    (AnalyticsObjectMeta.ctorInit analyticsPreSample2).reverseLaneNo = -1 ∧
    (AnalyticsObjectMeta.ctorInit analyticsPreSample2).objMoveDIrection =
      analyticsPreSample2.objMoveDIrection ∧
    (AnalyticsObjectMeta.ctorInit analyticsPreSample2).objStatus =
      analyticsPreSample2.objStatus ∧
    (AnalyticsObjectMeta.ctorInit analyticsPreSample2).move_length =
      analyticsPreSample2.move_length ∧
    (AnalyticsObjectMeta.ctorInit analyticsPreSample2).time_gap_move_millisec =
      analyticsPreSample2.time_gap_move_millisec ∧
    (AnalyticsObjectMeta.ctorInit analyticsPreSample2).time_gap_longstay_millisec =
      analyticsPreSample2.time_gap_longstay_millisec :=
  C10_ctor_assigns_exactly analyticsPreSample2 (by decide)
